import Mathlib

/-!
Verification of the `pioniq` OBD-II telemetry scripts (`obdii_data.py`).

The Python source is shallowly embedded: pure helpers become Lean
functions, Python exceptions become an explicit `PyExc` error type
carried in `Except`, the `while`/`for` loops become structural
recursion (fuel equal to the loop bound, or recursion over the list of
lines), and Python `float` arithmetic on the decoded telemetry fields
is modelled exactly with `ℚ` (all operations involved are exact
decimal scalings, and the single float comparison `soh <= 100` is
rounding-monotone, so the rational model decides it identically).
-/

namespace Pioniq

/-- Python exceptions raised by the script, as a structured error type.
`canError last idx` models `CanError("Bad frame order: last_idx({}) idx({})")`
(the two format arguments are kept; the fixed text is not re-modelled).
The `valueError*` constructors model the various `ValueError(...)` raises;
`typeError`/`indexError` model the built-in exceptions Python raises for
`len(None)` and for out-of-range sequence indexing. -/
inductive PyExc where
  | valueErrorLineLength (line : List Char) (n : Nat)
  | valueErrorBadHex
  | valueErrorUnexpectedFrame
  | valueErrorNoValidResponse
  | inconsistentSOH (soh : ℚ)
  | canError (last_idx idx : Nat)
  | typeError
  | indexError
  | connectionError
  deriving DecidableEq, Repr

instance {ε α : Type} [DecidableEq ε] [DecidableEq α] : DecidableEq (Except ε α)
  | .error a, .error b =>
    if h : a = b then .isTrue (by rw [h]) else .isFalse (by intro hh; cases hh; exact h rfl)
  | .error _, .ok _ => .isFalse (by intro h; cases h)
  | .ok _, .error _ => .isFalse (by intro h; cases h)
  | .ok a, .ok b =>
    if h : a = b then .isTrue (by rw [h]) else .isFalse (by intro hh; cases hh; exact h rfl)

/-- Value of one hexadecimal digit character, `none` if not a hex digit. -/
def hexDigit? (c : Char) : Option Nat :=
  if '0' ≤ c ∧ c ≤ '9' then some (c.toNat - '0'.toNat)
  else if 'a' ≤ c ∧ c ≤ 'f' then some (c.toNat - 'a'.toNat + 10)
  else if 'A' ≤ c ∧ c ≤ 'F' then some (c.toNat - 'A'.toNat + 10)
  else none

/-- Accumulator loop of `int(s, 16)`. -/
def hexNatCore : List Char → Nat → Option Nat
  | [], acc => some acc
  | c :: cs, acc =>
    match hexDigit? c with
    | none => none
    | some d => hexNatCore cs (16 * acc + d)

/-- Python `int(s, 16)`: `none` models the `ValueError` raised on an empty
string or a non-hex character. -/
def hexNat? (cs : List Char) : Option Nat :=
  if cs.isEmpty then none else hexNatCore cs 0

/-- Python `bytes.fromhex` / `bytearray.fromhex`: pairs of hex digits to
bytes; `none` models the `ValueError` on odd length or a non-hex character. -/
def bytesFromHex? : List Char → Option (List Nat)
  | [] => some []
  | [_] => none
  | c1 :: c2 :: cs =>
    match hexDigit? c1, hexDigit? c2, bytesFromHex? cs with
    | some hi, some lo, some rest => some ((16 * hi + lo) :: rest)
    | _, _, _ => none

/-- Resolved stop bound of a Python slice `s[a:b]` on a sequence of length
`n`: a negative `b` counts from the end, and the result is clamped to
`[0, n]`. -/
def pyStop (n : Nat) (b : Int) : Nat :=
  if b < 0 then ((n : Int) + b).toNat else min b.toNat n

/-- Python slice `cs[a:b]` for a non-negative start index `a` and a
possibly negative stop index `b`. -/
def pySlice (cs : List Char) (a : Nat) (b : Int) : List Char :=
  (cs.take (pyStop cs.length b)).drop a

/-- Python slice `l[a:b]` on a byte sequence, non-negative bounds. -/
def pyListSlice (l : List Nat) (a b : Nat) : List Nat :=
  (l.take b).drop a

/-- Python sequence indexing `l[i]`: raises `IndexError` when out of range. -/
def pyGet (l : List Nat) (i : Nat) : Except PyExc Nat :=
  if h : i < l.length then .ok l[i] else .error .indexError

/-- Mutable state of the loop in `can_response`: the accumulated payload
(`data`, initially Python `None`), the declared length (`data_len`) and the
last consecutive-frame index (`last_idx`). -/
structure CanSt where
  data : Option (List Nat)
  data_len : Nat
  last_idx : Nat
  deriving DecidableEq, Repr

/-- One iteration of the `for line in raw` loop of `can_response`
(obdii_data.py lines 91-123).  `.inl st` is falling through to the next
line with updated state; `.inr d` is `break` followed by `return data`. -/
def processLine (st : CanSt) (cs : List Char) : Except PyExc (CanSt ⊕ Option (List Nat)) :=
  if cs.length = 19 then
    match hexNat? (pySlice cs 0 3) with
    | none => .error .valueErrorBadHex
    | some _identifier =>
      match hexNat? (pySlice cs 3 4) with
      | none => .error .valueErrorBadHex
      | some frame_type =>
        if frame_type = 0 then       -- Single frame
          match hexNat? (pySlice cs 4 5) with
          | none => .error .valueErrorBadHex
          | some data_len =>
            match bytesFromHex? (pySlice cs 5 ((data_len : Int) * 2 + 5)) with
            | none => .error .valueErrorBadHex
            | some d => .ok (.inr (some d))
        else if frame_type = 1 then  -- First frame
          match hexNat? (pySlice cs 4 7) with
          | none => .error .valueErrorBadHex
          | some data_len =>
            match bytesFromHex? (cs.drop 7) with
            | none => .error .valueErrorBadHex
            | some d => .ok (.inl ⟨some d, data_len, 0⟩)
        else if frame_type = 2 then  -- Consecutive frame
          match hexNat? (pySlice cs 4 5) with
          | none => .error .valueErrorBadHex
          | some idx =>
            if (st.last_idx + 1) % 16 ≠ idx then
              .error (.canError st.last_idx idx)
            else
              match st.data with
              | none => .error .typeError   -- len(None) in Python
              | some d =>
                -- frame_len = min(7, data_len - len(data))
                match bytesFromHex?
                    (pySlice cs 5 (min 7 ((st.data_len : Int) - (d.length : Int)) * 2 + 5)) with
                | none => .error .valueErrorBadHex
                | some chunk =>
                  if st.data_len = (d ++ chunk).length then .ok (.inr (some (d ++ chunk)))
                  else .ok (.inl ⟨some (d ++ chunk), st.data_len, idx⟩)
        else                         -- Unexpected frame
          .error .valueErrorUnexpectedFrame
  else
    .error (.valueErrorLineLength cs cs.length)

/-- The `for` loop of `can_response`: threads the state through the lines;
when the lines are exhausted without a `break`, returns the accumulated
`data` (which may still be Python `None`). -/
def canLoop (st : CanSt) : List (List Char) → Except PyExc (Option (List Nat))
  | [] => .ok st.data
  | line :: rest =>
    match processLine st line with
    | .error e => .error e
    | .ok (.inl st') => canLoop st' rest
    | .ok (.inr d) => .ok d

/-- `can_response` (obdii_data.py lines 86-124) on the list of raw lines of
one CAN message. -/
def can_response (lines : List (List Char)) : Except PyExc (Option (List Nat)) :=
  canLoop ⟨none, 0, 0⟩ lines

/-- The length invariant of the reassembly loop claimed by the spec: the
accumulated payload never exceeds the declared `data_len`. -/
def lenInv (st : CanSt) : Prop :=
  ∀ d, st.data = some d → d.length ≤ st.data_len

theorem bytesFromHex?_length : ∀ (cs : List Char) (bs : List Nat),
    bytesFromHex? cs = some bs → cs.length = 2 * bs.length
  | [], _, h => by
    simp only [bytesFromHex?, Option.some.injEq] at h
    subst h; rfl
  | [_], _, h => by simp [bytesFromHex?] at h
  | c1 :: c2 :: cs, bs, h => by
    simp only [bytesFromHex?] at h
    rcases h1 : hexDigit? c1 with _ | hi <;> rw [h1] at h <;>
      rcases h2 : hexDigit? c2 with _ | lo <;> rw [h2] at h <;>
      rcases h3 : bytesFromHex? cs with _ | rest <;> rw [h3] at h <;>
      simp only [reduceCtorEq] at h
    have ih := bytesFromHex?_length cs rest h3
    simp only [Option.some.injEq] at h
    subst h
    simp only [List.length_cons]
    omega

theorem pyStop_le (n : Nat) (b : Int) : pyStop n b ≤ n := by
  rw [pyStop]; split <;> omega

theorem pyStop_eq_of_nonneg (n : Nat) (b : Int) (h0 : 0 ≤ b) (hn : b ≤ (n : Int)) :
    pyStop n b = b.toNat := by
  rw [pyStop, if_neg (by omega)]; omega

theorem pySlice_length (cs : List Char) (a : Nat) (b : Int) :
    (pySlice cs a b).length = pyStop cs.length b - a := by
  simp [pySlice, Nat.min_eq_left (pyStop_le cs.length b)]

/-- C7: a valid single-frame message (frame type 0, declared length at most
the 7 bytes a single frame can carry, well-formed hex) makes `can_response`
return exactly the `data_len`-byte hex-decoded payload of that first line,
immediately, whatever lines follow. -/
theorem C7_single_frame (cs : List Char) (rest : List (List Char)) (ident dl : Nat)
    (payload : List Nat)
    (h19 : cs.length = 19)
    (hid : hexNat? (pySlice cs 0 3) = some ident)
    (hft : hexNat? (pySlice cs 3 4) = some 0)
    (hdl : hexNat? (pySlice cs 4 5) = some dl)
    (hdl7 : dl ≤ 7)
    (hpay : bytesFromHex? (pySlice cs 5 ((dl : Int) * 2 + 5)) = some payload) :
    can_response (cs :: rest) = .ok (some payload) ∧ payload.length = dl := by
  constructor
  · simp [can_response, canLoop, processLine, h19, hid, hft, hdl, hpay]
  · have hlen := bytesFromHex?_length _ _ hpay
    rw [pySlice_length, h19, pyStop_eq_of_nonneg 19 _ (by omega) (by omega)] at hlen
    omega

/-- C7 witness: a concrete single-frame line with `data_len = 3` decodes to
its three payload bytes and never looks at the (malformed) second line. -/
theorem C7_single_frame_witness :
    can_response ["7EC03AABBCC12345678".toList, "XX".toList] = .ok (some [0xAA, 0xBB, 0xCC]) ∧
      ([0xAA, 0xBB, 0xCC] : List Nat).length = 3 :=
  C7_single_frame "7EC03AABBCC12345678".toList ["XX".toList] 0x7EC 3 [0xAA, 0xBB, 0xCC]
    (by decide) (by decide) (by decide) (by decide) (by decide) (by decide)

/-- C1: processing a consecutive frame (type 2) in a reassembly whose first
frame declared `data_len`: a wrong index fails with the sequence error
carrying `last_idx` and `idx`; a right index appends exactly
`min 7 (data_len - payload length)` decoded bytes and updates `last_idx`,
completing (with any trailing line bytes discarded) exactly when the
accumulated length reaches `data_len`. -/
theorem C1_consecutive_frame (cs : List Char) (d chunk : List Nat)
    (dlen last idx ident : Nat)
    (h19 : cs.length = 19)
    (hid : hexNat? (pySlice cs 0 3) = some ident)
    (hft : hexNat? (pySlice cs 3 4) = some 2)
    (hidx : hexNat? (pySlice cs 4 5) = some idx)
    (hle : d.length ≤ dlen)
    (hchunk : bytesFromHex? (pySlice cs 5
        (min 7 ((dlen : Int) - (d.length : Int)) * 2 + 5)) = some chunk) :
    (idx ≠ (last + 1) % 16 →
       processLine ⟨some d, dlen, last⟩ cs = .error (.canError last idx)) ∧
    (idx = (last + 1) % 16 →
       chunk.length = min 7 (dlen - d.length) ∧
       (∀ rest, dlen = (d ++ chunk).length →
          canLoop ⟨some d, dlen, last⟩ (cs :: rest) = .ok (some (d ++ chunk))) ∧
       (dlen ≠ (d ++ chunk).length →
          processLine ⟨some d, dlen, last⟩ cs =
            .ok (.inl ⟨some (d ++ chunk), dlen, idx⟩))) := by
  have hclen : chunk.length = min 7 (dlen - d.length) := by
    have hlen := bytesFromHex?_length _ _ hchunk
    rw [pySlice_length, h19,
      pyStop_eq_of_nonneg 19 _ (by omega) (by omega)] at hlen
    omega
  refine ⟨fun hne => ?_, fun heq => ⟨hclen, fun rest hdone => ?_, fun hcont => ?_⟩⟩
  · simp [processLine, h19, hid, hft, hidx, Ne.symm hne]
  · simp [canLoop, processLine, h19, hid, hft, hidx, heq, hchunk, ← hdone]
  · have hcont' : ¬dlen = d.length + chunk.length := by simpa using hcont
    simp [processLine, h19, hid, hft, hidx, heq, hchunk, hcont']

/-- C1 witness: in a message with `data_len = 13` and 6 bytes accumulated,
the consecutive frame with index 1 appends `min 7 (13-6) = 7` bytes and
completes reassembly at exactly 13 bytes. -/
theorem C1_consecutive_frame_witness :
    canLoop ⟨some [1, 2, 3, 4, 5, 6], 13, 0⟩ ["7EC21AABBCCDDEEFF00".toList] =
      .ok (some [1, 2, 3, 4, 5, 6, 0xAA, 0xBB, 0xCC, 0xDD, 0xEE, 0xFF, 0x00]) :=
  ((C1_consecutive_frame "7EC21AABBCCDDEEFF00".toList [1, 2, 3, 4, 5, 6]
      [0xAA, 0xBB, 0xCC, 0xDD, 0xEE, 0xFF, 0x00] 13 0 1 0x7EC
      (by decide) (by decide) (by decide) (by decide) (by decide)
      (by decide)).2 (by decide)).2.1 [] (by decide)

/-- C2 counterexample: a first frame declaring `data_len = 8` but carrying
only 6 bytes, with no further lines, makes `can_response` return the short
6-byte payload successfully instead of failing with any incomplete-message
error. -/
theorem C2_counterexample :
    can_response ["7EC1008AABBCCDDEEFF".toList] =
      .ok (some [0xAA, 0xBB, 0xCC, 0xDD, 0xEE, 0xFF]) := by decide

/-- Characterization of a message whose lines are ALL consumed by the
`can_response` loop: every line falls through to the next iteration
(no `break`, no exception).  `some st'` is the loop state after the last
line; `none` when some line breaks or raises instead. -/
def foldFrames (st : CanSt) : List (List Char) → Option CanSt
  | [] => some st
  | line :: rest =>
    match processLine st line with
    | .ok (.inl st') => foldFrames st' rest
    | _ => none

/-- C2 amended: whenever the loop consumes all lines of the message — in
particular whenever the accumulated payload never reaches the declared
`data_len`, since reaching it breaks — `can_response` returns the
accumulated partial payload (possibly `None`, possibly shorter than
`data_len`) successfully, never an incomplete-message error.  Stated for
every start state and every line list. -/
theorem C2_amended :
    (∀ (lines : List (List Char)) (st st' : CanSt),
       foldFrames st lines = some st' → canLoop st lines = .ok st'.data) ∧
    (∀ (lines : List (List Char)) (st' : CanSt),
       foldFrames ⟨none, 0, 0⟩ lines = some st' →
       can_response lines = .ok st'.data) := by
  have main : ∀ (lines : List (List Char)) (st st' : CanSt),
      foldFrames st lines = some st' → canLoop st lines = .ok st'.data := by
    intro lines
    induction lines with
    | nil =>
      intro st st' h
      simp only [foldFrames, Option.some.injEq] at h
      subst h
      rfl
    | cons l ls ih =>
      intro st st' h
      rw [foldFrames] at h
      rw [canLoop]
      split at h
      case h_1 st1 hstep =>
        rw [hstep]
        exact ih st1 st' h
      case h_2 => exact absurd h (by simp)
  exact ⟨main, fun lines st' h => main lines ⟨none, 0, 0⟩ st' h⟩

/-- C2 amended witness: a multi-frame message (first frame declaring 32
bytes, one consecutive frame, 13 bytes accumulated) whose lines are all
consumed returns the short 13-byte payload with no error. -/
theorem C2_amended_witness :
    can_response ["7EC1020AABBCCDDEEFF".toList, "7EC2111223344556677".toList] =
      .ok (some [0xAA, 0xBB, 0xCC, 0xDD, 0xEE, 0xFF,
        0x11, 0x22, 0x33, 0x44, 0x55, 0x66, 0x77]) :=
  C2_amended.2 ["7EC1020AABBCCDDEEFF".toList, "7EC2111223344556677".toList]
    ⟨some [0xAA, 0xBB, 0xCC, 0xDD, 0xEE, 0xFF,
      0x11, 0x22, 0x33, 0x44, 0x55, 0x66, 0x77], 32, 1⟩ (by decide)

/-- C6: the 8-consecutive-frame raw sequence from the source's own worked
example reassembles successfully (no sequence error, no other error) into
exactly 61 bytes. -/
theorem C6_end_to_end :
    (can_response ["7EC103D6101FFFFFFFF".toList, "7EC21A9264826480300".toList, "7EC22050EFA1F1F1F1F".toList,
      "7EC231F1F1F001DC714".toList, "7EC24C70A012A910001".toList, "7EC25547A000151B300".toList,
      "7EC26007AD100007718".toList, "7EC27005928B40D017F".toList, "7EC280000000003E800".toList]).map
      (Option.map List.length) = .ok (some 61) := by decide

/-- C9 counterexample: a first frame declaring `data_len = 3` still stores
all 6 bytes of its line, so immediately after the first frame the
accumulated payload (6 bytes) exceeds the declared `data_len` (3). -/
theorem C9_counterexample :
    processLine ⟨none, 0, 0⟩ "7EC1003AABBCCDDEEFF".toList =
      .ok (.inl ⟨some [0xAA, 0xBB, 0xCC, 0xDD, 0xEE, 0xFF], 3, 0⟩) ∧
    ¬lenInv ⟨some [0xAA, 0xBB, 0xCC, 0xDD, 0xEE, 0xFF], 3, 0⟩ :=
  ⟨by decide, fun h => absurd (h _ rfl) (by decide)⟩

/-- C9 amended: a processed line that continues reassembly preserves the
length invariant `accumulated ≤ data_len` provided the declared `data_len`
is at least 6 — the first frame unconditionally stores the 6 bytes of its
line, so a smaller declared length is exceeded immediately; and a
consecutive frame that completes reassembly (frame type 2, `break`) returns
a payload of exactly the declared length. -/
theorem C9_length_invariant :
    (∀ (st st' : CanSt) (cs : List Char), processLine st cs = .ok (.inl st') →
       6 ≤ st'.data_len → lenInv st → lenInv st') ∧
    (∀ (st : CanSt) (cs : List Char) (d' : List Nat),
       hexNat? (pySlice cs 3 4) = some 2 →
       processLine st cs = .ok (.inr (some d')) → d'.length = st.data_len) := by
  constructor
  · intro st st' cs h h6 hinv
    rw [processLine] at h
    split at h
    case isFalse => exact absurd h (by simp)
    case isTrue h19 =>
      split at h
      case h_1 => exact absurd h (by simp)
      case h_2 =>
        split at h
        case h_1 => exact absurd h (by simp)
        case h_2 frame_type hft =>
          split at h
          case isTrue =>
            split at h <;> [skip; split at h] <;> exact absurd h (by simp)
          case isFalse =>
            split at h
            case isTrue =>
              -- first frame: the stored chunk is the 12 remaining hex chars
              split at h
              case h_1 => exact absurd h (by simp)
              case h_2 dl hdl =>
                split at h
                case h_1 => exact absurd h (by simp)
                case h_2 d hbytes =>
                  have hlen := bytesFromHex?_length _ _ hbytes
                  simp only [Except.ok.injEq, Sum.inl.injEq] at h
                  subst h
                  intro dd hdd
                  simp only [Option.some.injEq] at hdd
                  subst hdd
                  simp only [List.length_drop, h19] at hlen
                  simpa using h6.trans_eq' (by omega)
            case isFalse =>
              split at h
              case isFalse => exact absurd h (by simp)
              case isTrue =>
                -- consecutive frame
                split at h
                case h_1 => exact absurd h (by simp)
                case h_2 idx hidx =>
                  split at h
                  case isTrue => exact absurd h (by simp)
                  case isFalse =>
                    split at h
                    case h_1 => exact absurd h (by simp)
                    case h_2 d hd =>
                      split at h
                      case h_1 => exact absurd h (by simp)
                      case h_2 chunk hchunk =>
                        have hdlen := hinv d hd
                        have hlen := bytesFromHex?_length _ _ hchunk
                        rw [pySlice_length, h19,
                          pyStop_eq_of_nonneg 19 _ (by omega) (by omega)] at hlen
                        split at h
                        case isTrue => exact absurd h (by simp)
                        case isFalse =>
                          simp only [Except.ok.injEq, Sum.inl.injEq] at h
                          subst h
                          intro dd hdd
                          simp only [Option.some.injEq] at hdd
                          subst hdd
                          simp only [List.length_append]
                          omega
  · intro st cs d' hft2 h
    rw [processLine] at h
    split at h
    case isFalse => exact absurd h (by simp)
    case isTrue h19 =>
      split at h
      case h_1 => exact absurd h (by simp)
      case h_2 =>
        split at h
        case h_1 => exact absurd h (by simp)
        case h_2 frame_type hft =>
          rw [hft2] at hft
          simp only [Option.some.injEq] at hft
          subst hft
          split at h
          case isTrue hc => exact absurd hc (by decide)
          case isFalse =>
            split at h
            case isTrue hc => exact absurd hc (by decide)
            case isFalse =>
              split at h
              case isFalse hc => exact absurd hc (by simp)
              case isTrue =>
                split at h
                case h_1 => exact absurd h (by simp)
                case h_2 idx hidx =>
                  split at h
                  case isTrue => exact absurd h (by simp)
                  case isFalse =>
                    split at h
                    case h_1 => exact absurd h (by simp)
                    case h_2 d hd =>
                      split at h
                      case h_1 => exact absurd h (by simp)
                      case h_2 chunk hchunk =>
                        split at h
                        case isFalse => exact absurd h (by simp)
                        case isTrue hbreak =>
                          simp only [Except.ok.injEq, Sum.inr.injEq,
                            Option.some.injEq] at h
                          subst h
                          simp [hbreak, List.length_append]

/-- C9 amended witness: the valid first frame of the worked example (declared
length 61 ≥ 6) preserves the invariant starting from the initial state. -/
theorem C9_length_invariant_witness :
    lenInv ⟨some [0x61, 0x01, 0xFF, 0xFF, 0xFF, 0xFF], 61, 0⟩ :=
  C9_length_invariant.1 ⟨none, 0, 0⟩ _ "7EC103D6101FFFFFFFF".toList
    (by decide) (by decide) (fun d hd => by cases hd)

/-- Outcome of one `connection.query(command)` transport call: either the
call raises (any exception), or it returns a response object whose `.value`
is modelled as an `Option String` (`none` for a Python `None` value). -/
inductive AttemptOutcome where
  | raises
  | returns (value : Option String)
  deriving DecidableEq, Repr

/-- `MAX_ATTEMPTS = 3` (obdii_data.py line 454). -/
def MAX_ATTEMPTS : Nat := 3

/-- The `valid_response` classification of `query_command` (obdii_data.py
line 185): `not(cmd_response is None or cmd_response.value == "?" or
cmd_response.value == "NO DATA" or cmd_response.value == "" or
cmd_response.value is None or exception)`.  The first argument is
`cmd_response` (`none` for Python `None`), the second the `exception`
flag. -/
def valid_response : Option (Option String) → Bool → Bool
  | none, _ => false
  | some v, exception =>
    !(decide (v = some "?") || decide (v = some "NO DATA") || decide (v = some "")
      || decide (v = none) || exception)

/-- The `while` loop of `query_command` (obdii_data.py lines 179-188),
with fuel (the loop runs at most `MAX_ATTEMPTS` iterations because
`command_count` grows by one per iteration and is bounded by the guard).
State: `count` = `command_count`, `cmd` = `cmd_response`, `exc` =
`exception`, `valid` = `valid_response`; `sleeps` logs the `time.sleep`
durations.  The final `if not valid_response: raise ValueError(...)` of
lines 190-194 is the exit expression. -/
def query_loop (transport : Nat → AttemptOutcome) :
    Nat → Nat → Option (Option String) → Bool → Bool → List Nat →
    Except PyExc (Option (Option String)) × List Nat
  | 0, _, cmd, _, valid, sleeps =>
    (if valid then .ok cmd else .error .valueErrorNoValidResponse, sleeps)
  | fuel + 1, count, cmd, exc, valid, sleeps =>
    if !valid && decide (count < MAX_ATTEMPTS) then
      match transport (count + 1) with
      | .raises =>
        query_loop transport fuel (count + 1) cmd true (valid_response cmd true)
          (if !(valid_response cmd true) && decide (count + 1 < MAX_ATTEMPTS) then
            sleeps ++ [count + 1] else sleeps)
      | .returns v =>
        query_loop transport fuel (count + 1) (some v) exc (valid_response (some v) exc)
          (if !(valid_response (some v) exc) && decide (count + 1 < MAX_ATTEMPTS) then
            sleeps ++ [count + 1] else sleeps)
    else
      (if valid then .ok cmd else .error .valueErrorNoValidResponse, sleeps)

/-- `query_command` (obdii_data.py lines 174-194), abstracted over the
transport (attempt number ↦ outcome of `connection.query`).  Returns the
result (response or the `ValueError` for exceeded attempts) together with
the list of sleep durations performed. -/
def query_command (transport : Nat → AttemptOutcome) :
    Except PyExc (Option (Option String)) × List Nat :=
  query_loop transport MAX_ATTEMPTS 0 none false false []

theorem valid_response_exc (cmd : Option (Option String)) :
    valid_response cmd true = false := by
  cases cmd <;> simp [valid_response]

theorem query_loop_exc (t : Nat → AttemptOutcome) : ∀ (fuel count : Nat)
    (cmd : Option (Option String)) (sleeps : List Nat),
    (query_loop t fuel count cmd true false sleeps).1 =
      .error .valueErrorNoValidResponse
  | 0, _, _, _ => by simp [query_loop]
  | fuel + 1, count, cmd, sleeps => by
    rw [query_loop]
    split
    · cases t (count + 1) <;> simp only [valid_response_exc] <;>
        exact query_loop_exc t fuel _ _ _
    · simp

/-- C10: the `exception` flag of `query_command` is set by any raising
transport call and never cleared, so (a) with the flag set no response is
ever classified valid, (b) from any loop state with the flag set the call
can only finish with the max-attempts `ValueError`, and (c) in particular
if the attempt made from a clean state raises, the whole call fails with
that `ValueError` no matter what later attempts return. -/
theorem C10_sticky_exception :
    (∀ cmd : Option (Option String), valid_response cmd true = false) ∧
    (∀ (t : Nat → AttemptOutcome) (fuel count : Nat) (cmd : Option (Option String))
       (sleeps : List Nat),
       (query_loop t fuel count cmd true false sleeps).1 =
         .error .valueErrorNoValidResponse) ∧
    (∀ (t : Nat → AttemptOutcome) (k fuel : Nat) (cmd : Option (Option String))
       (sleeps : List Nat), t (k + 1) = .raises → k < MAX_ATTEMPTS →
       (query_loop t (fuel + 1) k cmd false false sleeps).1 =
         .error .valueErrorNoValidResponse) := by
  refine ⟨valid_response_exc, fun t fuel count cmd sleeps => query_loop_exc t fuel count cmd sleeps,
    fun t k fuel cmd sleeps hk hlt => ?_⟩
  rw [query_loop]
  rw [if_pos (by simp [hlt])]
  rw [hk, valid_response_exc]
  exact query_loop_exc t fuel _ _ _

/-- C10 witness: a transport whose first attempt raises makes the whole
call fail with the max-attempts error. -/
theorem C10_sticky_exception_witness :
    (query_loop (fun _ => AttemptOutcome.raises) 3 0 none false false []).1 =
      .error .valueErrorNoValidResponse :=
  C10_sticky_exception.2.2 (fun _ => AttemptOutcome.raises) 0 2 none [] rfl (by decide)

/-- Transport refuting C3: the first attempt raises, every later attempt
returns a perfectly valid value. -/
def transportRaiseThenOk : Nat → AttemptOutcome :=
  fun n => if n = 1 then .raises else .returns (some "42")

/-- C3 counterexample: the transport fails once (N = 1 < 3) and then
returns a valid response on each later attempt, yet `query_command` still
exhausts all 3 attempts and fails with the max-attempts error (after
sleeping 1 s then 2 s), instead of returning the success value — because
the `exception` flag is never cleared. -/
theorem C3_counterexample :
    query_command transportRaiseThenOk =
      (.error .valueErrorNoValidResponse, [1, 2]) ∧
    valid_response (some (some "42")) false = true := by
  constructor <;> decide

/-- C3 amended: `query_command` classifies an attempt as invalid exactly
when the (sticky) exception flag is set or the response is
null/empty/`?`/`NO DATA`; with the flag set nothing is ever valid again;
for a transport that never raises, failing `N < 3` times with invalid
values and then returning a valid one yields that success value after
sleeping 1 s, …, N s; and when all 3 attempts are invalid the call fails
with the max-attempts error. -/
theorem C3_retry_policy :
    (∀ v : Option String, valid_response (some v) false = false ↔
       (v = none ∨ v = some "" ∨ v = some "?" ∨ v = some "NO DATA")) ∧
    (∀ cmd : Option (Option String), valid_response cmd true = false) ∧
    (∀ (t : Nat → AttemptOutcome) (N : Nat) (vs : Nat → Option String)
       (v : Option String), N < MAX_ATTEMPTS →
       (∀ i, 1 ≤ i → i ≤ N →
          t i = .returns (vs i) ∧ valid_response (some (vs i)) false = false) →
       t (N + 1) = .returns v → valid_response (some v) false = true →
       query_command t = (.ok (some v), (List.range N).map (· + 1))) ∧
    (∀ t : Nat → AttemptOutcome,
       (∀ i, 1 ≤ i → i ≤ MAX_ATTEMPTS →
          t i = .raises ∨ ∃ v, t i = .returns v ∧ valid_response (some v) false = false) →
       (query_command t).1 = .error .valueErrorNoValidResponse) := by
  refine ⟨?_, valid_response_exc, ?_, ?_⟩
  · intro v
    rcases v with _ | s
    · simp [valid_response]
    · simp [valid_response]
      tauto
  · intro t N vs v hN hfail hsucc hvalid
    have hN3 : N < 3 := hN
    interval_cases N
    · simp [query_command, query_loop, MAX_ATTEMPTS, hsucc, hvalid]
    · have h1 := hfail 1 (by omega) (by omega)
      simp [query_command, query_loop, MAX_ATTEMPTS, h1.1, h1.2, hsucc, hvalid]
      decide
    · have h1 := hfail 1 (by omega) (by omega)
      have h2 := hfail 2 (by omega) (by omega)
      simp [query_command, query_loop, MAX_ATTEMPTS, h1.1, h1.2, h2.1, h2.2, hsucc, hvalid]
      decide
  · intro t h
    rcases h 1 (by omega) (by decide) with h1 | ⟨v1, h1, hv1⟩ <;>
      rcases h 2 (by omega) (by decide) with h2 | ⟨v2, h2, hv2⟩ <;>
      rcases h 3 (by omega) (by decide) with h3 | ⟨v3, h3, hv3⟩ <;>
      simp [query_command, query_loop, MAX_ATTEMPTS, h1, h2, h3,
        valid_response_exc, query_loop_exc, *]

/-- C3 amended witness: one invalid `NO DATA` answer followed by a valid
one yields the valid answer after a single 1 s sleep. -/
theorem C3_retry_policy_witness :
    query_command (fun n => if n = 1 then .returns (some "NO DATA")
        else .returns (some "OK")) =
      (.ok (some (some "OK")), [1]) := by
  have h := C3_retry_policy.2.2.1
    (fun n => if n = 1 then .returns (some "NO DATA") else .returns (some "OK"))
    1 (fun _ => some "NO DATA") (some "OK") (by decide)
    (fun i h1 h2 => by
      have hi : i = 1 := by omega
      subst hi
      exact ⟨by decide, by decide⟩)
    (by decide) (by decide)
  simpa using h

/-- The bit-mask concatenation at the heart of `extract_gear`
(obdii_data.py lines 145-156): letters appended in the fixed order
P, R, N, D, B for masks 0x1, 0x2, 0x4, 0x8, 0x10. -/
def gearString (gear_bits : Nat) : String :=
  (if gear_bits &&& 0x1 ≠ 0 then "P" else "") ++
  (if gear_bits &&& 0x2 ≠ 0 then "R" else "") ++
  (if gear_bits &&& 0x4 ≠ 0 then "N" else "") ++
  (if gear_bits &&& 0x8 ≠ 0 then "D" else "") ++
  (if gear_bits &&& 0x10 ≠ 0 then "B" else "")

/-- `extract_gear` (obdii_data.py lines 141-156): reads
`raw_can_response.value[7]` (raising `IndexError` on a short payload) and
concatenates the gear letters of its set bits. -/
def extract_gear (value : List Nat) : Except PyExc String :=
  match pyGet value 7 with
  | .error e => .error e
  | .ok gear_bits => .ok (gearString gear_bits)

/-- C8: for every byte `b` at offset 7 of the payload, the gear decoder
returns the letters of the masks 0x1, 0x2, 0x4, 0x8, 0x10 whose bit is set
in `b`, concatenated in the fixed order P, R, N, D, B (all matching letters
included); in particular byte 0b00001001 yields "PD" and byte 0 yields "". -/
theorem C8_gear_bits (value : List Nat) (b : Nat) (h7 : 7 < value.length)
    (hb : value.get ⟨7, h7⟩ = b) :
    extract_gear value = .ok (String.join
      (([(0x1, "P"), (0x2, "R"), (0x4, "N"), (0x8, "D"), (0x10, "B")]).filterMap
        (fun m => if b &&& m.1 ≠ 0 then some m.2 else none))) ∧
    gearString 0b00001001 = "PD" ∧ gearString 0 = "" := by
  refine ⟨?_, by decide, by decide⟩
  have hv : value[7] = b := hb
  rw [extract_gear, pyGet, dif_pos h7, hv]
  rcases Nat.decEq (b &&& 1) 0 with h1 | h1 <;>
    rcases Nat.decEq (b &&& 2) 0 with h2 | h2 <;>
    rcases Nat.decEq (b &&& 4) 0 with h4 | h4 <;>
    rcases Nat.decEq (b &&& 8) 0 with h8 | h8 <;>
    rcases Nat.decEq (b &&& 16) 0 with h16 | h16 <;>
    simp only [gearString, String.join, List.filterMap, ne_eq, h1, h2, h4, h8, h16,
      eq_self_iff_true, not_true, not_false_iff, ite_true, ite_false] <;>
    decide

/-- C8 witness: a payload whose byte 7 is 0b00001001 decodes to "PD". -/
theorem C8_gear_bits_witness :
    extract_gear [0, 0, 0, 0, 0, 0, 0, 9] = .ok "PD" := by
  have h := (C8_gear_bits [0, 0, 0, 0, 0, 0, 0, 9] 9 (by decide) rfl).1
  simpa using h

/-- Which exceptions the per-group `except (ValueError, CanError)` handlers
of the orchestrator (obdii_data.py lines 659-687) catch. -/
def group_boundary_catches : PyExc → Bool
  | .valueErrorLineLength _ _ => true
  | .valueErrorBadHex => true
  | .valueErrorUnexpectedFrame => true
  | .valueErrorNoValidResponse => true
  | .inconsistentSOH _ => true
  | .canError _ _ => true
  | _ => false

/-- The sequence of per-group `try`/`except (ValueError, CanError)` blocks
of the orchestrator, generalized over the list of (topic, group outcome)
pairs: a successful group appends its record to `mqtt_msgs`; a group
failing with a caught exception is logged and skipped; any other exception
escapes to the run-level handlers (obdii_data.py lines 689-696), which stop
all remaining groups (the `finally` still publishes what was collected, so
the collected list is returned alongside the aborting exception). -/
def run_groups : List (String × Except PyExc String) → List (String × String) × Option PyExc
  | [] => ([], none)
  | (topic, res) :: rest =>
    match res with
    | .ok payload =>
      ((topic, payload) :: (run_groups rest).1, (run_groups rest).2)
    | .error e =>
      if group_boundary_catches e then run_groups rest else ([], some e)

/-- The orchestrator's group sequence in its fixed order (obdii_data.py
lines 659-687): battery, vmcu, odometer, tpms, ext_temp. -/
def run_telemetry (battery vmcu odometer tpms ext_temp : Except PyExc String) :
    List (String × String) × Option PyExc :=
  run_groups [("battery", battery), ("vmcu", vmcu), ("odometer", odometer),
    ("tpms", tpms), ("ext_temp", ext_temp)]

/-- C4 counterexample: a decode-stage `IndexError` (here: `extract_gear` on
a 7-byte payload, a real decode error of the vmcu group) is not a
`ValueError`/`CanError`, so it is not caught at the group boundary: the
run aborts and the records of the remaining groups (odometer, tpms,
ext_temp) are never produced, refuting "every error … skips only that
group". -/
theorem C4_counterexample :
    extract_gear [0, 0, 0, 0, 0, 0, 0] = .error .indexError ∧
    group_boundary_catches .indexError = false ∧
    run_telemetry (.ok "b") (.error .indexError) (.ok "o") (.ok "t") (.ok "e") =
      ([("battery", "b")], some .indexError) := by
  refine ⟨by decide, by decide, by decide⟩

/-- C4 amended: a group failing with a `ValueError` or `CanError` is caught
at its boundary and only that group is skipped — every remaining group
still executes and its record is still collected — while a group failing
with any other exception kind aborts all remaining groups (the records
already collected are still handed to the publish step); `ValueError` and
`CanError` are exactly what the boundary catches. -/
theorem C4_group_isolation :
    (∀ (topic : String) (e : PyExc) (rest : List (String × Except PyExc String)),
       group_boundary_catches e = true →
       run_groups ((topic, .error e) :: rest) = run_groups rest) ∧
    (∀ (topic payload : String) (rest : List (String × Except PyExc String)),
       run_groups ((topic, .ok payload) :: rest) =
         ((topic, payload) :: (run_groups rest).1, (run_groups rest).2)) ∧
    (∀ (topic : String) (e : PyExc) (rest : List (String × Except PyExc String)),
       group_boundary_catches e = false →
       run_groups ((topic, .error e) :: rest) = ([], some e)) ∧
    (∀ last idx : Nat, group_boundary_catches (.canError last idx) = true) ∧
    (group_boundary_catches .valueErrorNoValidResponse = true ∧
     group_boundary_catches .valueErrorBadHex = true ∧
     group_boundary_catches .valueErrorUnexpectedFrame = true ∧
     ∀ soh : ℚ, group_boundary_catches (.inconsistentSOH soh) = true) := by
  refine ⟨fun topic e rest he => ?_, fun topic payload rest => rfl,
    fun topic e rest he => ?_, fun last idx => rfl, rfl, rfl, rfl, fun soh => rfl⟩
  · simp [run_groups, he]
  · simp [run_groups, he]

/-- C4 amended witness: a battery group failing with the SOH
`ValueError` is skipped and all four remaining groups still produce their
records. -/
theorem C4_group_isolation_witness :
    run_telemetry (.error (.inconsistentSOH 101)) (.ok "v") (.ok "o") (.ok "t") (.ok "e") =
      ([("vmcu", "v"), ("odometer", "o"), ("tpms", "t"), ("ext_temp", "e")], none) := by
  have h := C4_group_isolation.1 "battery" (.inconsistentSOH 101)
    [("vmcu", .ok "v"), ("odometer", .ok "o"), ("tpms", .ok "t"), ("ext_temp", .ok "e")]
    rfl
  exact h.trans (by decide)

/-- `obd.utils.bytes_to_int`: big-endian composition of a byte sequence
(`v = v * 256 + b` over the bytes; an empty slice gives 0). -/
def bytes_to_int (bs : List Nat) : Nat :=
  bs.foldl (fun v b => v * 256 + b) 0

/-- Python `"{:02d}".format n` for the module/cell field names. -/
def fmt2 (n : Nat) : String :=
  if n < 10 then "0" ++ toString n else toString n

/-- The State-Of-Health expression of obdii_data.py line 211:
`bytes_to_int(raw_2105.value[27:29]) / 10.0`. -/
def soh_of (p2105 : List Nat) : ℚ :=
  (bytes_to_int (pyListSlice p2105 27 29) : ℚ) / 10

/-- `query_battery_information` (obdii_data.py lines 196-296) without its
transport part: the five `query_command` results are abstracted to the five
reassembled payloads (`raw_21xx.value`) and the capture time to
`timestamp`.  The returned record is the `battery_info` dict as an ordered
(field name, value) list; all Python float arithmetic is exact here and is
modelled in ℚ (`int(x / 2.0)` for a byte `x` is `x / 2` in ℕ).  Direct
indexings `value[i]` raise `IndexError` (`pyGet`), in the source's
evaluation order; slice reads cannot raise.  The `soh <= 100` guard
(line 215) raises the inconsistent-SOH `ValueError` of line 295 before any
field is computed. -/
def query_battery_information (p2101 p2102 p2103 p2104 p2105 : List Nat)
    (timestamp : Nat) : Except PyExc (List (String × ℚ)) := do
  let soh : ℚ := soh_of p2105
  if soh ≤ 100 then
    let chargingBits ← pyGet p2101 11
    let dcBatteryCurrent : ℚ := (bytes_to_int (pyListSlice p2101 12 14) : ℚ) / 10
    let dcBatteryVoltage : ℚ := (bytes_to_int (pyListSlice p2101 14 16) : ℚ) / 10
    let cellTemps : List ℚ := [
      (bytes_to_int (pyListSlice p2101 18 19) : ℚ),
      (bytes_to_int (pyListSlice p2101 19 20) : ℚ),
      (bytes_to_int (pyListSlice p2101 20 21) : ℚ),
      (bytes_to_int (pyListSlice p2101 21 22) : ℚ),
      (bytes_to_int (pyListSlice p2101 22 23) : ℚ),
      (bytes_to_int (pyListSlice p2105 11 12) : ℚ),
      (bytes_to_int (pyListSlice p2105 12 13) : ℚ),
      (bytes_to_int (pyListSlice p2105 13 14) : ℚ),
      (bytes_to_int (pyListSlice p2105 14 15) : ℚ),
      (bytes_to_int (pyListSlice p2105 15 16) : ℚ),
      (bytes_to_int (pyListSlice p2105 16 17) : ℚ),
      (bytes_to_int (pyListSlice p2105 17 18) : ℚ)]
    let cellVoltageChunks ← [p2102, p2103, p2104].mapM (fun p =>
      (List.range 32).mapM (fun i => do
        let b ← pyGet p (6 + i)
        pure ((b : ℚ) / 50)))
    let cellVoltages := cellVoltageChunks.flatten
    let b6 ← pyGet p2101 6
    let b33 ← pyGet p2105 33
    let b52 ← pyGet p2101 52
    let b31 ← pyGet p2101 31
    let b29 ← pyGet p2101 29
    let b30 ← pyGet p2101 30
    let dev22 ← pyGet p2105 22
    let heat25 ← pyGet p2105 25
    let heat26 ← pyGet p2105 26
    let det29 ← pyGet p2105 29
    let det32 ← pyGet p2105 32
    let base : List (String × ℚ) := [
      ("timestamp", (timestamp : ℚ)),
      ("socBms", (b6 : ℚ) / 2),
      ("socDisplay", ((b33 / 2 : Nat) : ℚ)),
      ("soh", soh),
      ("bmsIgnition", if b52 &&& 0x4 ≠ 0 then 1 else 0),
      ("bmsMainRelay", if chargingBits &&& 0x1 ≠ 0 then 1 else 0),
      ("auxBatteryVoltage", (b31 : ℚ) / 10),
      ("charging", if chargingBits &&& 0x80 ≠ 0 then 1 else 0),
      ("normalChargePort", if chargingBits &&& 0x20 ≠ 0 then 1 else 0),
      ("rapidChargePort", if chargingBits &&& 0x40 ≠ 0 then 1 else 0),
      ("fanStatus", (b29 : ℚ)),
      ("fanFeedback", (b30 : ℚ)),
      ("cumulativeEnergyCharged", (bytes_to_int (pyListSlice p2101 40 44) : ℚ) / 10),
      ("cumulativeEnergyDischarged", (bytes_to_int (pyListSlice p2101 44 48) : ℚ) / 10),
      ("cumulativeChargeCurrent", (bytes_to_int (pyListSlice p2101 32 36) : ℚ) / 10),
      ("cumulativeDischargeCurrent", (bytes_to_int (pyListSlice p2101 36 40) : ℚ) / 10),
      ("cumulativeOperatingTime", (bytes_to_int (pyListSlice p2101 48 52) : ℚ)),
      ("availableChargePower", (bytes_to_int (pyListSlice p2101 7 9) : ℚ) / 100),
      ("availableDischargePower", (bytes_to_int (pyListSlice p2101 9 11) : ℚ) / 100),
      ("dcBatteryCellVoltageDeviation", (dev22 : ℚ) / 50),
      ("dcBatteryHeater1Temperature", (heat25 : ℚ)),
      ("dcBatteryHeater2Temperature", (heat26 : ℚ)),
      ("dcBatteryInletTemperature", (bytes_to_int (pyListSlice p2101 22 23) : ℚ)),
      ("dcBatteryMaxTemperature", (bytes_to_int (pyListSlice p2101 16 17) : ℚ)),
      ("dcBatteryMinTemperature", (bytes_to_int (pyListSlice p2101 17 18) : ℚ)),
      ("dcBatteryCellNoMaxDeterioration", (det29 : ℚ)),
      ("dcBatteryCellMinDeterioration", (bytes_to_int (pyListSlice p2105 30 32) : ℚ) / 10),
      ("dcBatteryCellNoMinDeterioration", (det32 : ℚ)),
      ("dcBatteryCurrent", dcBatteryCurrent),
      ("dcBatteryPower", dcBatteryCurrent * dcBatteryVoltage / 1000),
      ("dcBatteryVoltage", dcBatteryVoltage),
      ("dcBatteryAvgTemperature", cellTemps.sum / (cellTemps.length : ℚ)),
      ("driveMotorSpeed", (bytes_to_int (pyListSlice p2101 55 57) : ℚ))]
    let moduleTemps := cellTemps.enum.map (fun it =>
      ("dcBatteryModuleTemp" ++ fmt2 (it.1 + 1), it.2))
    let cellVolts := cellVoltages.enum.map (fun it =>
      ("dcBatteryCellVoltage" ++ fmt2 (it.1 + 1), it.2))
    pure (base ++ moduleTemps ++ cellVolts)
  else
    throw (.inconsistentSOH soh)

/-- C5: the battery decoder computes SOH as the big-endian integer of
payload bytes 27-28 of the 2105 response divided by 10 (raw 950 decodes to
95), and whenever the decoded SOH exceeds 100 it fails with the
inconsistent-reading error, producing no battery fields. -/
theorem C5_soh_guard (p2101 p2102 p2103 p2104 p2105 : List Nat) (timestamp : Nat)
    (b27 b28 : Nat) (hb : pyListSlice p2105 27 29 = [b27, b28]) :
    soh_of p2105 = ((256 * b27 + b28 : Nat) : ℚ) / 10 ∧
    soh_of (List.replicate 27 0 ++ [3, 182]) = 95 ∧
    (100 < soh_of p2105 →
       query_battery_information p2101 p2102 p2103 p2104 p2105 timestamp =
         .error (.inconsistentSOH (soh_of p2105))) := by
  refine ⟨?_, ?_, fun hgt => ?_⟩
  · rw [soh_of, hb]
    norm_num [bytes_to_int]
    ring
  · have h950 : bytes_to_int (pyListSlice (List.replicate 27 0 ++ [3, 182]) 27 29) = 950 := by
      decide
    rw [soh_of, h950]
    norm_num
  · rw [query_battery_information]
    rw [if_neg (not_le.mpr hgt)]
    rfl

/-- C5 witness: a 2105 payload whose bytes 27-28 encode raw 1010 decodes
to SOH 101 > 100, and the decoder fails with the inconsistent-reading
error, producing no fields. -/
theorem C5_soh_guard_witness :
    query_battery_information [] [] [] [] (List.replicate 27 0 ++ [3, 242]) 0 =
      .error (.inconsistentSOH 101) := by
  have h1010 : bytes_to_int (pyListSlice (List.replicate 27 0 ++ [3, 242]) 27 29) = 1010 := by
    decide
  have hso : soh_of (List.replicate 27 0 ++ [3, 242]) = 101 := by
    rw [soh_of, h1010]; norm_num
  have h := (C5_soh_guard [] [] [] [] (List.replicate 27 0 ++ [3, 242]) 0 3 242
    (by decide)).2.2 (by rw [hso]; norm_num)
  rw [hso] at h
  exact h

end Pioniq
